import Mathlib

/-! Verification development for the client script of the Monte de los Olivos
website (src/script.js).  The definitions below are a shallow embedding of the
script's data model and operations: the regular expressions of CONFIG.forms are
embedded as backtracking character-list matchers, form handlers become pure
functions from field values to result records, the verse-of-the-day widget
becomes a state-passing function, local storage becomes an explicit key-value
list with an exception-modelling failure flag, and the modal focus bookkeeping
becomes a small record of the focused element, AppState.lastFocusedElement and
the trap flag.  Theorems about these definitions settle the specification's
claims. -/

namespace MonteOlivos

/-- Separator character of the class written [ -] in CONFIG.forms.phoneRegex
(src/script.js line 25). -/
def isSep (c : Char) : Bool := c == ' ' || c == '-'

/-- Backtracking matcher for a regex fragment consisting of a starred character
class followed by a continuation: either the continuation matches at the
current position, or one more class character is consumed. -/
def starThen (p : Char → Bool) (k : List Char → Bool) : List Char → Bool
  | [] => k []
  | c :: cs => k (c :: cs) || (p c && starThen p k cs)

/-- Backtracking matcher for a one-or-more character class followed by a
continuation, as in the pieces of CONFIG.forms.emailRegex. -/
def plusThen (p : Char → Bool) (k : List Char → Bool) : List Char → Bool
  | [] => false
  | c :: cs => p c && (k cs || plusThen p k cs)

/-- Matcher for the repeated group ([0-9][ -]*){n} followed by the end anchor,
the tail of CONFIG.forms.phoneRegex with n = 8. -/
def digitBlock : Nat → List Char → Bool
  | 0, l => l.isEmpty
  | _ + 1, [] => false
  | n + 1, c :: cs => c.isDigit && starThen isSep (digitBlock n) cs

/-- Matcher for the fragment (6|7)[ -]*([0-9][ -]*){8}$ of
CONFIG.forms.phoneRegex: a leading 6 or 7, then separators, then eight more
digits interleaved with separators, then the end anchor. -/
def phoneHead : List Char → Bool
  | [] => false
  | c :: cs => (c == '6' || c == '7') && starThen isSep (digitBlock 8) cs

/-- Matcher for the part of CONFIG.forms.phoneRegex after the optional country
code group: [ -]*(6|7)[ -]*([0-9][ -]*){8}$ . -/
def phoneCore (l : List Char) : Bool :=
  starThen isSep phoneHead l

/-- Strips a literal character sequence from the front of the input and returns
the remainder; models matching one alternative of the country code group. -/
def stripLit : List Char → List Char → Option (List Char)
  | [], l => some l
  | _ :: _, [] => none
  | p :: ps, c :: cs => if c == p then stripLit ps cs else none

/-- Character of the class [^\s@] used throughout CONFIG.forms.emailRegex. -/
def emailChar (c : Char) : Bool := !c.isWhitespace && c != '@'

namespace Utils

/-- Utils.validatePhone on a character list (src/script.js lines 125-127):
CONFIG.forms.phoneRegex is ^(\+34|0034|34)?[ -]*(6|7)[ -]*([0-9][ -]*){8}$ and
the four disjuncts below are the alternatives of the optional country code
group, the last one being its absence. -/
def validPhoneL (l : List Char) : Bool :=
  (match stripLit ['+', '3', '4'] l with
   | some r => phoneCore r
   | none => false) ||
  (match stripLit ['0', '0', '3', '4'] l with
   | some r => phoneCore r
   | none => false) ||
  (match stripLit ['3', '4'] l with
   | some r => phoneCore r
   | none => false) ||
  phoneCore l

/-- Utils.validatePhone (src/script.js lines 125-127). -/
def validatePhone (s : String) : Bool := validPhoneL s.toList

/-- Utils.validateEmail (src/script.js lines 118-120): tests
CONFIG.forms.emailRegex = ^[^\s@]+@[^\s@]+\.[^\s@]+$ with full backtracking. -/
def validateEmail (s : String) : Bool :=
  plusThen emailChar (fun r1 =>
    match r1 with
    | '@' :: r2 =>
      plusThen emailChar (fun r3 =>
        match r3 with
        | '.' :: r4 => plusThen emailChar List.isEmpty r4
        | _ => false) r2
    | _ => false) s.toList

end Utils

example : Utils.validatePhone "612345678" = true := by decide
example : Utils.validatePhone "512345678" = false := by decide
example : Utils.validatePhone "+34 612 345 678" = true := by decide
example : Utils.validatePhone "34612345678" = true := by decide
example : Utils.validatePhone "6123456789" = false := by decide
example : Utils.validateEmail "a@b.com" = true := by decide
example : Utils.validateEmail "a@b" = false := by decide
example : Utils.validateEmail "abc" = false := by decide

/-- JS String.prototype.trim: drops leading and trailing whitespace.  Written
on the character list so that it evaluates inside the kernel. -/
def jsTrim (s : String) : String :=
  ⟨((s.toList.dropWhile Char.isWhitespace).reverse.dropWhile Char.isWhitespace).reverse⟩

/-- A testimonial record as built by the submit handler of
Forms.setupTestimonioForm (src/script.js lines 994-998). -/
structure Testimonio where
  nombre : String
  texto : String
  fecha : String
deriving DecidableEq

/-- Result of handling a testimonial form submission: the new
AppState.testimonios list, whether form.reset() ran, and the notification
shown as a (message, type) pair. -/
structure TestimonioSubmit where
  testimonios : List Testimonio
  formCleared : Bool
  notification : String × String
deriving DecidableEq

/-- The name as computed by the submit handler (src/script.js line 995):
formData.get('nombre')?.trim() || 'Anónimo', i.e. the default applies both
when the field is missing and when it trims to the empty string. -/
def defaultNombre (nombreField : Option String) : String :=
  match nombreField.map jsTrim with
  | none => "Anónimo"
  | some n => if n = "" then "Anónimo" else n

/-- The trimmed testimonial text, read as the empty string when the field is
missing (src/script.js line 996). -/
def submittedTexto (textoField : Option String) : String :=
  (textoField.map jsTrim).getD ""

namespace Forms

/-- Submit handler of Forms.setupTestimonioForm (src/script.js lines 991-1006):
builds the record, and when the trimmed text is truthy and at least 10
characters long appends it to AppState.testimonios (via addTestimonio), resets
the form and shows a success notification; otherwise leaves the state alone
and shows an error notification. -/
def setupTestimonioForm_submit (testimonios : List Testimonio)
    (nombreField textoField : Option String) (now : String) : TestimonioSubmit :=
  let nombre := defaultNombre nombreField
  match textoField.map jsTrim with
  | some t =>
    if t ≠ "" ∧ 10 ≤ t.length then
      { testimonios := testimonios ++ [{ nombre := nombre, texto := t, fecha := now }],
        formCleared := true,
        notification := ("¡Gracias por compartir tu testimonio!", "success") }
    else
      { testimonios := testimonios, formCleared := false,
        notification := ("Por favor, escribe un testimonio de al menos 10 caracteres.", "error") }
  | none =>
    { testimonios := testimonios, formCleared := false,
      notification := ("Por favor, escribe un testimonio de al menos 10 caracteres.", "error") }

end Forms

/-- The six field values read by Forms.validateContactForm out of the contact
form's FormData; a missing control reads as none. -/
structure ContactInput where
  nombre : Option String
  email : Option String
  telefono : Option String
  tema : Option String
  mensaje : Option String
  privacidad : Option String

namespace Forms

/-- The name block of Forms.validateContactForm (src/script.js lines 904-912):
a failure appends the inline error for contact-nombre and clears isValid. -/
def nombreStep (nombre : Option String) (acc : Bool × List (String × String)) :
    Bool × List (String × String) :=
  match nombre.map jsTrim with
  | none => (false, acc.2 ++ [("contact-nombre", "El nombre es obligatorio")])
  | some n =>
    if n = "" then (false, acc.2 ++ [("contact-nombre", "El nombre es obligatorio")])
    else if n.length < 2 then
      (false, acc.2 ++ [("contact-nombre", "El nombre debe tener al menos 2 caracteres")])
    else acc

/-- The email block (src/script.js lines 914-922). -/
def emailStep (email : Option String) (acc : Bool × List (String × String)) :
    Bool × List (String × String) :=
  match email.map jsTrim with
  | none => (false, acc.2 ++ [("contact-email", "El email es obligatorio")])
  | some e =>
    if e = "" then (false, acc.2 ++ [("contact-email", "El email es obligatorio")])
    else if Utils.validateEmail e then acc
    else (false, acc.2 ++ [("contact-email", "Por favor, introduce un email válido")])

/-- The optional telephone block (src/script.js lines 924-929): an absent or
blank value passes. -/
def telefonoStep (telefono : Option String) (acc : Bool × List (String × String)) :
    Bool × List (String × String) :=
  match telefono.map jsTrim with
  | none => acc
  | some t =>
    if t = "" then acc
    else if Utils.validatePhone t then acc
    else (false, acc.2 ++ [("contact-telefono", "Por favor, introduce un teléfono válido")])

/-- The topic block (src/script.js lines 931-936); the raw value is not
trimmed. -/
def temaStep (tema : Option String) (acc : Bool × List (String × String)) :
    Bool × List (String × String) :=
  match tema with
  | none => (false, acc.2 ++ [("contact-tema", "Por favor, selecciona un tema")])
  | some t =>
    if t = "" then (false, acc.2 ++ [("contact-tema", "Por favor, selecciona un tema")])
    else acc

/-- The message block (src/script.js lines 938-946). -/
def mensajeStep (mensaje : Option String) (acc : Bool × List (String × String)) :
    Bool × List (String × String) :=
  match mensaje.map jsTrim with
  | none => (false, acc.2 ++ [("contact-mensaje", "El mensaje es obligatorio")])
  | some m =>
    if m = "" then (false, acc.2 ++ [("contact-mensaje", "El mensaje es obligatorio")])
    else if m.length < 10 then
      (false, acc.2 ++ [("contact-mensaje", "El mensaje debe tener al menos 10 caracteres")])
    else acc

/-- The privacy checkbox block (src/script.js lines 948-953); an unchecked box
reads as none. -/
def privacidadStep (privacidad : Option String) (acc : Bool × List (String × String)) :
    Bool × List (String × String) :=
  match privacidad with
  | none => (false, acc.2 ++ [("contact-privacidad", "Debes aceptar la política de privacidad")])
  | some p =>
    if p = "" then (false, acc.2 ++ [("contact-privacidad", "Debes aceptar la política de privacidad")])
    else acc

/-- Forms.validateContactForm (src/script.js lines 900-956): the six blocks run
unconditionally in source order, threading the isValid flag and the emitted
inline errors; the flag starts true and each failing block forces it false. -/
def validateContactForm (f : ContactInput) : Bool × List (String × String) :=
  privacidadStep f.privacidad (mensajeStep f.mensaje (temaStep f.tema
    (telefonoStep f.telefono (emailStep f.email (nombreStep f.nombre (true, []))))))

end Forms

/-- A verse entry of CONFIG.versiculos (src/script.js lines 27-34). -/
structure Versiculo where
  texto : String
  cita : String
deriving DecidableEq

/-- CONFIG.versiculos, the fixed six-entry verse list (src/script.js lines
27-34). -/
def versiculos : List Versiculo :=
  [⟨"Todo lo puedo en Cristo que me fortalece.", "Filipenses 4:13"⟩,
   ⟨"Porque yo sé los pensamientos que tengo acerca de vosotros, dice Jehová, pensamientos de paz, y no de mal, para daros el fin que esperáis.", "Jeremías 29:11"⟩,
   ⟨"Confía en Jehová de todo tu corazón, y no te apoyes en tu propia prudencia.", "Proverbios 3:5"⟩,
   ⟨"Y sabemos que a los que aman a Dios, todas las cosas les ayudan a bien.", "Romanos 8:28"⟩,
   ⟨"Mas buscad primeramente el reino de Dios y su justicia, y todas estas cosas os serán añadidas.", "Mateo 6:33"⟩,
   ⟨"No temas, porque yo estoy contigo; no desmayes, porque yo soy tu Dios.", "Isaías 41:10"⟩]

/-- State touched by the verse-of-the-day widget: the value stored under the
ultimo_versiculo key (none on a first visit) and the displayed verse text and
citation. -/
structure VerseState where
  stored : Option (Versiculo × String)
  displayTexto : String
  displayCita : String
deriving DecidableEq

namespace RecursosEspirituales

/-- RecursosEspirituales.cambiarVersiculo (src/script.js lines 1154-1184):
returns early when the verse DOM elements are missing; otherwise swaps in the
verse at the random index (Math.floor(Math.random()*length), modelled as an
arbitrary pick modulo the list length) and attempts to persist it together
with today's date string.  The setItem sits inside try/catch: when the
persistFails flag models a throwing storage, the failure is logged and
swallowed, the rotation still happens, and the stored entry keeps its stale
date.  The Bool records whether a rotation happened. -/
def cambiarVersiculo (domPresent persistFails : Bool) (pick : Nat)
    (today : String) (s : VerseState) : VerseState × Bool :=
  if domPresent then
    let v := versiculos.getD (pick % versiculos.length) ⟨"", ""⟩
    ({ stored := if persistFails then s.stored else some (v, today),
       displayTexto := v.texto,
       displayCita := "— " ++ v.cita }, true)
  else (s, false)

/-- RecursosEspirituales.verificarVersiculoDiario (src/script.js lines
1186-1201): reads the stored entry and triggers a rotation only when an entry
exists and its date string differs from today's. -/
def verificarVersiculoDiario (domPresent persistFails : Bool) (pick : Nat)
    (today : String) (s : VerseState) : VerseState × Bool :=
  match s.stored with
  | none => (s, false)
  | some (_, fecha) =>
    if fecha ≠ today then cambiarVersiculo domPresent persistFails pick today s
    else (s, false)

end RecursosEspirituales

/-- The browser's local key-value storage, as a list of key-value pairs. -/
abbrev Store := List (String × String)

/-- localStorage.setItem, with a flag that makes every storage call throw — the
quota or availability failure the try/catch blocks in the source guard
against. -/
def lsSetItem (fails : Bool) (st : Store) (k v : String) : Except Unit Store :=
  if fails then .error () else .ok ((k, v) :: st.filter (fun p => !(p.1 == k)))

/-- localStorage.getItem under the same failure flag. -/
def lsGetItem (fails : Bool) (st : Store) (k : String) :
    Except Unit (Option String) :=
  if fails then .error () else .ok ((st.find? (fun p => p.1 == k)).map Prod.snd)

/-- Whether a computation returned normally, i.e. no exception escaped to the
caller. -/
def isOkE {α : Type} : Except Unit α → Bool
  | .ok _ => true
  | .error _ => false

/-- Stand-in for JSON.stringify on the testimonios array; its exact format is
irrelevant to the storage-failure claims. -/
def serializeTestimonios (ts : List Testimonio) : String :=
  String.intercalate ";" (ts.map (fun t => t.nombre ++ "," ++ t.texto ++ "," ++ t.fecha))

namespace Forms

/-- Forms.addTestimonio (src/script.js lines 1009-1019): pushes the record onto
AppState.testimonios and attempts to persist the list; the setItem call sits
inside try/catch, so a storage failure is logged and swallowed and the call
always returns normally. -/
def addTestimonio (fails : Bool) (testimonios : List Testimonio) (t : Testimonio)
    (st : Store) : Except Unit (List Testimonio × Store) :=
  let ts := testimonios ++ [t]
  match lsSetItem fails st "testimonios_monte_olivos" (serializeTestimonios ts) with
  | .ok st2 => .ok (ts, st2)
  | .error _ => .ok (ts, st)

end Forms

namespace AccessibilityManager

/-- Click handler installed by AccessibilityManager.setupColorContrastToggle
(src/script.js lines 1338-1346): toggles the high-contrast class and calls
localStorage.setItem with no surrounding try/catch, so a storage failure
propagates to the caller. -/
def setupColorContrastToggle_click (fails : Bool) (highContrast : Bool)
    (st : Store) : Except Unit (Bool × Store) :=
  let hc := !highContrast
  match lsSetItem fails st "high-contrast" (if hc then "true" else "false") with
  | .ok st2 => .ok (hc, st2)
  | .error e => .error e

/-- Preference restore of setupColorContrastToggle (src/script.js lines
1348-1351): localStorage.getItem with no try/catch, comparing the stored value
to the string "true". -/
def setupColorContrastToggle_restore (fails : Bool) (st : Store) :
    Except Unit Bool :=
  match lsGetItem fails st "high-contrast" with
  | .ok v => .ok (v == some "true")
  | .error e => .error e

end AccessibilityManager

namespace MonteOlivosApp

/-- MonteOlivosApp.restoreUserPreferences (src/script.js lines 1441-1453): both
getItem calls sit inside one try/catch whose handler only warns, so storage
failures never escape; a failure at the first read skips the theme read. -/
def restoreUserPreferences (fails : Bool) (st : Store) :
    Except Unit (Option String × Option String) :=
  match lsGetItem fails st "testimonios_monte_olivos" with
  | .error _ => .ok (none, none)
  | .ok saved =>
    match lsGetItem fails st "theme" with
    | .error _ => .ok (saved, none)
    | .ok theme => .ok (saved, theme)

end MonteOlivosApp

namespace RecursosEspirituales

/-- The persistence step of cambiarVersiculo (src/script.js lines 1175-1183):
setItem inside try/catch, a failure is logged and swallowed. -/
def cambiarVersiculo_persist (fails : Bool) (st : Store) (v : Versiculo)
    (today : String) : Except Unit Store :=
  match lsSetItem fails st "ultimo_versiculo" (v.texto ++ "," ++ v.cita ++ "," ++ today) with
  | .ok st2 => .ok st2
  | .error _ => .ok st

/-- The read step of verificarVersiculoDiario (src/script.js lines 1187-1200):
getItem inside try/catch, a failure is logged and swallowed. -/
def verificarVersiculoDiario_read (fails : Bool) (st : Store) :
    Except Unit (Option String) :=
  match lsGetItem fails st "ultimo_versiculo" with
  | .ok v => .ok v
  | .error _ => .ok none

end RecursosEspirituales

/-- Donation methods returned by DonationManager.getDonationMethod. -/
inductive DonationMethod
  | bizum
  | paypal
  | bank
  | unknown
deriving DecidableEq

/-- JS String.prototype.toLowerCase as applied to donation card titles
(ASCII case folding on the character list). -/
def jsToLower (s : String) : List Char := s.toList.map Char.toLower

/-- JS String.prototype.includes on character lists. -/
def containsSub (needle : List Char) : List Char → Bool
  | [] => needle.isEmpty
  | c :: cs => needle.isPrefixOf (c :: cs) || containsSub needle cs

namespace DonationManager

/-- DonationManager.getDonationMethod (src/script.js lines 734-741): lowercases
the card title and tests the three keywords in order. -/
def getDonationMethod (title : String) : DonationMethod :=
  let t := jsToLower title
  if containsSub ("bizum".toList) t then .bizum
  else if containsSub ("paypal".toList) t then .paypal
  else if containsSub ("transferencia".toList) t then .bank
  else .unknown

/-- Observable effects of DonationManager.handleDonation: which donation-info
modal opens, which URL opens, and the notification shown. -/
structure DonationEffect where
  modalShown : Option DonationMethod
  urlOpened : Option String
  notification : Option (String × String)
deriving DecidableEq

/-- DonationManager.handleDonation (src/script.js lines 743-754) together with
the three handlers it dispatches to (lines 756-768); the default branch shows
the error notification. -/
def handleDonation : DonationMethod → DonationEffect
  | .bizum => ⟨some .bizum, none, some ("Información de Bizum mostrada", "info")⟩
  | .paypal => ⟨none, some "https://paypal.me/montelosolivo", some ("Abriendo PayPal...", "info")⟩
  | .bank => ⟨some .bank, none, none⟩
  | .unknown => ⟨none, none, some ("Método de donación no disponible", "error")⟩

end DonationManager

/-- The component classes of the script, as named in the system overview of the
specification. -/
inductive AppModule
  | navigation
  | scrollManager
  | gallery
  | eventManager
  | donationManager
  | forms
  | recursosEspirituales
  | accessibilityManager
  | cookieManager
deriving DecidableEq

namespace MonteOlivosApp

/-- MonteOlivosApp.init (src/script.js lines 1370-1379): the modules
constructed, pushed onto this.modules and then initialized, in source order.
CookieManager (defined at lines 1506-1582) is never constructed there or
anywhere else in the script. -/
def init_modules : List AppModule :=
  [.navigation, .scrollManager, .gallery, .eventManager, .donationManager,
   .forms, .recursosEspirituales, .accessibilityManager]

/-- Modelled from the spec: the component list of the system overview (spec
section 2), the list the claim says init initializes in full. -/
def systemOverviewComponents : List AppModule :=
  [.navigation, .scrollManager, .gallery, .eventManager, .donationManager,
   .forms, .recursosEspirituales, .accessibilityManager, .cookieManager]

end MonteOlivosApp

/-- Focus bookkeeping shared by the modal code: the element that currently has
focus (by identifier), AppState.lastFocusedElement, and whether a Tab trap is
installed. -/
structure FocusState where
  focused : String
  lastFocusedElement : Option String
  trapActive : Bool
deriving DecidableEq

namespace AccessibilityManager

/-- The modal-opened handler of AccessibilityManager.setupFocusManagement
(src/script.js lines 1317-1323): stores document.activeElement into
AppState.lastFocusedElement, focuses the modal's first focusable descendant and
installs a trap.  It runs only when a modal-opened event is dispatched. -/
def modalOpenedHandler (firstFocusable : String) (s : FocusState) : FocusState :=
  { focused := firstFocusable,
    lastFocusedElement := some s.focused,
    trapActive := true }

/-- The modal-closed handler (src/script.js lines 1326-1331): when a last
focused element was recorded, focus it and clear the record. -/
def modalClosedHandler (s : FocusState) : FocusState :=
  match s.lastFocusedElement with
  | some e => { s with focused := e, lastFocusedElement := none }
  | none => s

end AccessibilityManager

namespace Gallery

/-- Focus effects of Gallery.openImageModal (src/script.js lines 481-533): the
freshly created modal's close button is focused (line 531) and a trap is
installed (line 532), but no modal-opened event is dispatched and the untrap
function returned by Utils.trapFocus is discarded. -/
def openImageModal (s : FocusState) : FocusState :=
  { focused := "image-modal-close",
    lastFocusedElement := s.lastFocusedElement,
    trapActive := true }

/-- Focus effects of the closeModal closure of Gallery.openImageModal
(src/script.js lines 504-512): the modal node is removed (taking the trap's
keydown listener with it), no modal-closed event is dispatched, and removing
the focused close button drops focus onto document.body. -/
def closeImageModal (s : FocusState) : FocusState :=
  { focused := "body",
    lastFocusedElement := s.lastFocusedElement,
    trapActive := false }

end Gallery

namespace EventManager

/-- Focus effects of EventManager.openEventModal (src/script.js lines 667-669):
the close button is focused and the trap installed before modal-opened is
dispatched, so the handler captures the modal's own close button — which is
also the modal's first focusable descendant. -/
def openEventModal (s : FocusState) : FocusState :=
  AccessibilityManager.modalOpenedHandler "event-modal-close"
    { s with focused := "event-modal-close", trapActive := true }

/-- Focus effects of closing the event modal with its close button or backdrop
(src/script.js lines 643-655 and 672-675): untrapFocus runs and closeModal
dispatches modal-closed. -/
def closeViaButton (s : FocusState) : FocusState :=
  AccessibilityManager.modalClosedHandler { s with trapActive := false }

/-- Focus effects of closing the event modal with Escape (src/script.js lines
658-664): closeModal runs and dispatches modal-closed, but untrapFocus is
never called. -/
def closeViaEscape (s : FocusState) : FocusState :=
  AccessibilityManager.modalClosedHandler s

end EventManager

namespace DonationManager

/-- Focus effects of DonationManager.createDonationModal (src/script.js lines
859-861): identical pattern to the event modal — focus the close button,
install the trap, then dispatch modal-opened. -/
def openDonationModal (s : FocusState) : FocusState :=
  AccessibilityManager.modalOpenedHandler "donation-modal-close"
    { s with focused := "donation-modal-close", trapActive := true }

/-- Focus effects of closing the donation modal with its close button or
backdrop (src/script.js lines 835-847 and 864-867). -/
def closeViaButton (s : FocusState) : FocusState :=
  AccessibilityManager.modalClosedHandler { s with trapActive := false }

/-- Focus effects of closing the donation modal with Escape (src/script.js
lines 849-856): closeModal runs and dispatches modal-closed, but untrapFocus is
never called. -/
def closeViaEscape (s : FocusState) : FocusState :=
  AccessibilityManager.modalClosedHandler s

end DonationManager

/-- C2 counterexample: the per-day idempotence claim fails when the persist
throws — with a stored entry dated domingo, the DOM present and a failing
setItem (swallowed by the catch), a check on lunes rotates but keeps the stale
date, and a second check on lunes rotates again: two rotations on the same
day. -/
theorem verse_daily_check_counterexample :
    ((RecursosEspirituales.verificarVersiculoDiario true true 0 "lunes"
        ⟨some (⟨"Texto", "Cita"⟩, "domingo"), "Texto", "— Cita"⟩).2 = true) ∧
    ((RecursosEspirituales.verificarVersiculoDiario true true 1 "lunes"
        (RecursosEspirituales.verificarVersiculoDiario true true 0 "lunes"
          ⟨some (⟨"Texto", "Cita"⟩, "domingo"), "Texto", "— Cita"⟩).1).2 = true) := by
  constructor
  · rfl
  · rfl

/-- C2 amended: when the persist succeeds, the daily check is idempotent per
calendar day — a rotation stores today's date string and a second same-day
check finds the stored date equal to today, so at most one rotation happens
from any state, with any picks and whether or not the DOM elements exist; when
the persist throws, the stale date remains stored and a second same-day check
(with the DOM present and a stored entry whose date differs from today)
rotates again. -/
theorem verse_daily_check_amended :
    (∀ (dom : Bool) (p1 p2 : Nat) (today : String) (s : VerseState),
       ((RecursosEspirituales.verificarVersiculoDiario dom false p1 today s).2 &&
         (RecursosEspirituales.verificarVersiculoDiario dom false p2 today
           (RecursosEspirituales.verificarVersiculoDiario dom false p1 today s).1).2) =
         false) ∧
    (∀ (p1 p2 : Nat) (today : String) (s : VerseState) (v : Versiculo) (fecha : String),
       s.stored = some (v, fecha) → fecha ≠ today →
       (RecursosEspirituales.verificarVersiculoDiario true true p1 today s).2 = true ∧
       (RecursosEspirituales.verificarVersiculoDiario true true p2 today
         (RecursosEspirituales.verificarVersiculoDiario true true p1 today s).1).2 =
         true) := by
  constructor
  · intro dom p1 p2 today s
    obtain ⟨st, dt, dc⟩ := s
    cases st with
    | none => simp [RecursosEspirituales.verificarVersiculoDiario]
    | some vd =>
      obtain ⟨v, fecha⟩ := vd
      by_cases h : fecha = today
      · simp [RecursosEspirituales.verificarVersiculoDiario, h]
      · cases dom with
        | false =>
          simp [RecursosEspirituales.verificarVersiculoDiario,
            RecursosEspirituales.cambiarVersiculo, h]
        | true =>
          simp [RecursosEspirituales.verificarVersiculoDiario,
            RecursosEspirituales.cambiarVersiculo, h]
  · intro p1 p2 today s v fecha hst h
    obtain ⟨st, dt, dc⟩ := s
    simp only at hst
    subst hst
    simp [RecursosEspirituales.verificarVersiculoDiario,
      RecursosEspirituales.cambiarVersiculo, h]

/-- C2 amended witness: the amended theorem's failure branch instantiated at
the counterexample's concrete stored state dated domingo checked twice on
lunes. -/
theorem verse_daily_check_amended_witness :
    (RecursosEspirituales.verificarVersiculoDiario true true 2 "lunes"
      ⟨some (⟨"Texto", "Cita"⟩, "domingo"), "Texto", "— Cita"⟩).2 = true ∧
    (RecursosEspirituales.verificarVersiculoDiario true true 3 "lunes"
      (RecursosEspirituales.verificarVersiculoDiario true true 2 "lunes"
        ⟨some (⟨"Texto", "Cita"⟩, "domingo"), "Texto", "— Cita"⟩).1).2 = true :=
  verse_daily_check_amended.2 2 3 "lunes"
    ⟨some (⟨"Texto", "Cita"⟩, "domingo"), "Texto", "— Cita"⟩
    ⟨"Texto", "Cita"⟩ "domingo" rfl (by decide)

/-- C10: on a first visit, when nothing is stored under the ultimo_versiculo
key, the daily check performs no rotation and changes neither the stored state
nor the displayed verse, whether or not the DOM elements exist and whether or
not storage would fail. -/
theorem verse_first_visit_noop (dom pf : Bool) (pick : Nat) (today dt dc : String) :
    RecursosEspirituales.verificarVersiculoDiario dom pf pick today ⟨none, dt, dc⟩ =
      (⟨none, dt, dc⟩, false) := rfl

/-- C3 counterexample: the claim that every local-storage operation is wrapped
defensively is false — the contrast-toggle click handler calls setItem with no
try/catch, so with failing storage the exception propagates to the caller. -/
theorem storage_wrapping_counterexample :
    AccessibilityManager.setupColorContrastToggle_click true false [] =
      Except.error () := rfl

/-- C3 amended: the storage operations in Forms.addTestimonio,
MonteOlivosApp.restoreUserPreferences and the verse persistence and read are
wrapped and never propagate a storage failure, but the two unwrapped operations
of AccessibilityManager.setupColorContrastToggle propagate the failure. -/
theorem storage_wrapping_amended :
    (∀ (fails : Bool) (ts : List Testimonio) (t : Testimonio) (st : Store),
        isOkE (Forms.addTestimonio fails ts t st) = true) ∧
    (∀ (fails : Bool) (st : Store),
        isOkE (MonteOlivosApp.restoreUserPreferences fails st) = true) ∧
    (∀ (fails : Bool) (st : Store) (v : Versiculo) (today : String),
        isOkE (RecursosEspirituales.cambiarVersiculo_persist fails st v today) = true) ∧
    (∀ (fails : Bool) (st : Store),
        isOkE (RecursosEspirituales.verificarVersiculoDiario_read fails st) = true) ∧
    (∀ (hc : Bool) (st : Store),
        isOkE (AccessibilityManager.setupColorContrastToggle_click true hc st) = false) ∧
    (∀ st : Store,
        isOkE (AccessibilityManager.setupColorContrastToggle_restore true st) = false) :=
  ⟨fun fails _ _ _ => by cases fails <;> rfl,
   fun fails _ => by cases fails <;> rfl,
   fun fails _ _ _ => by cases fails <;> rfl,
   fun fails _ => by cases fails <;> rfl,
   fun _ _ => rfl,
   fun _ => rfl⟩

/-- C4 counterexample: CookieManager is listed among the components of the
system overview, but MonteOlivosApp.init never constructs or initializes it. -/
theorem init_modules_counterexample :
    AppModule.cookieManager ∈ MonteOlivosApp.systemOverviewComponents ∧
      AppModule.cookieManager ∉ MonteOlivosApp.init_modules := by decide

/-- C4 amended: MonteOlivosApp.init constructs, registers and initializes every
component of the system overview except CookieManager, which appears in the
overview but is never instantiated by init. -/
theorem init_modules_amended (m : AppModule) :
    m ∈ MonteOlivosApp.init_modules ↔
      (m ∈ MonteOlivosApp.systemOverviewComponents ∧ m ≠ AppModule.cookieManager) := by
  cases m <;> decide

/-- C5 counterexample: with focus initially on an element btn-donar, the
Gallery image modal captures nothing at open (AppState.lastFocusedElement stays
none), and none of the three managers' open/close cycles restores focus to
btn-donar. -/
theorem modal_focus_counterexample :
    (Gallery.openImageModal ⟨"btn-donar", none, false⟩).lastFocusedElement = none ∧
    (Gallery.closeImageModal (Gallery.openImageModal ⟨"btn-donar", none, false⟩)).focused ≠
      "btn-donar" ∧
    (EventManager.closeViaButton (EventManager.openEventModal
      ⟨"btn-donar", none, false⟩)).focused ≠ "btn-donar" ∧
    (DonationManager.closeViaButton (DonationManager.openDonationModal
      ⟨"btn-donar", none, false⟩)).focused ≠ "btn-donar" := by decide

/-- C5 amended: each open moves focus to the modal's close button and installs
a trap, but the element captured differs from the claim: the Gallery modal
dispatches no modal events, so nothing is captured and closing drops focus to
the body; the event and donation modals dispatch modal-opened only after moving
focus, so the captured element is the modal's own close button, and a
close via button or backdrop removes the trap and focuses that close button,
while an Escape close of the event or donation modal leaves the trap
installed. -/
theorem modal_focus_amended (s : FocusState) :
    (Gallery.openImageModal s).focused = "image-modal-close" ∧
    (Gallery.openImageModal s).trapActive = true ∧
    (Gallery.openImageModal s).lastFocusedElement = s.lastFocusedElement ∧
    (Gallery.closeImageModal (Gallery.openImageModal s)).focused = "body" ∧
    (Gallery.closeImageModal (Gallery.openImageModal s)).lastFocusedElement =
      s.lastFocusedElement ∧
    (EventManager.openEventModal s).focused = "event-modal-close" ∧
    (EventManager.openEventModal s).lastFocusedElement = some "event-modal-close" ∧
    EventManager.closeViaButton (EventManager.openEventModal s) =
      ⟨"event-modal-close", none, false⟩ ∧
    (EventManager.closeViaEscape (EventManager.openEventModal s)).trapActive = true ∧
    (DonationManager.openDonationModal s).lastFocusedElement =
      some "donation-modal-close" ∧
    DonationManager.closeViaButton (DonationManager.openDonationModal s) =
      ⟨"donation-modal-close", none, false⟩ ∧
    (DonationManager.closeViaEscape (DonationManager.openDonationModal s)).trapActive =
      true :=
  ⟨rfl, rfl, rfl, rfl, rfl, rfl, rfl, rfl, rfl, rfl, rfl, rfl⟩

/-- C8: a card titled "Bizum — dona ahora" resolves to method bizum, and any
title containing none of the keywords bizum, paypal, transferencia after
lowercasing resolves to unknown, whose handling shows the error
notification. -/
theorem donation_method_detection :
    DonationManager.getDonationMethod "Bizum — dona ahora" = DonationMethod.bizum ∧
    ∀ title : String,
      containsSub ("bizum".toList) (jsToLower title) = false →
      containsSub ("paypal".toList) (jsToLower title) = false →
      containsSub ("transferencia".toList) (jsToLower title) = false →
      DonationManager.getDonationMethod title = DonationMethod.unknown ∧
      (DonationManager.handleDonation (DonationManager.getDonationMethod title)).notification =
        some ("Método de donación no disponible", "error") := by
  constructor
  · decide
  · intro title h1 h2 h3
    have e : DonationManager.getDonationMethod title =
        (if containsSub ("bizum".toList) (jsToLower title) = true then DonationMethod.bizum
         else if containsSub ("paypal".toList) (jsToLower title) = true then DonationMethod.paypal
         else if containsSub ("transferencia".toList) (jsToLower title) = true then DonationMethod.bank
         else DonationMethod.unknown) := rfl
    have hm : DonationManager.getDonationMethod title = DonationMethod.unknown := by
      rw [e, h1, h2, h3]
      simp
    refine ⟨hm, ?_⟩
    rw [hm]
    rfl

/-- C8 witness: the title "Colecta dominical" contains none of the keywords, is
detected as unknown and handling it shows the error notification. -/
theorem donation_method_detection_witness :
    DonationManager.getDonationMethod "Colecta dominical" = DonationMethod.unknown ∧
    (DonationManager.handleDonation
        (DonationManager.getDonationMethod "Colecta dominical")).notification =
      some ("Método de donación no disponible", "error") :=
  donation_method_detection.2 "Colecta dominical" (by decide) (by decide) (by decide)

/-- C9: method detection is total over title strings — the result is always one
of the four constructors — and follows the fixed priority bizum over paypal
over transferencia when several keywords occur. -/
theorem donation_method_priority (title : String) :
    (DonationManager.getDonationMethod title = DonationMethod.bizum ∨
     DonationManager.getDonationMethod title = DonationMethod.paypal ∨
     DonationManager.getDonationMethod title = DonationMethod.bank ∨
     DonationManager.getDonationMethod title = DonationMethod.unknown) ∧
    (containsSub ("bizum".toList) (jsToLower title) = true →
       DonationManager.getDonationMethod title = DonationMethod.bizum) ∧
    (containsSub ("bizum".toList) (jsToLower title) = false →
     containsSub ("paypal".toList) (jsToLower title) = true →
       DonationManager.getDonationMethod title = DonationMethod.paypal) ∧
    (containsSub ("bizum".toList) (jsToLower title) = false →
     containsSub ("paypal".toList) (jsToLower title) = false →
     containsSub ("transferencia".toList) (jsToLower title) = true →
       DonationManager.getDonationMethod title = DonationMethod.bank) := by
  have e : DonationManager.getDonationMethod title =
      (if containsSub ("bizum".toList) (jsToLower title) = true then DonationMethod.bizum
       else if containsSub ("paypal".toList) (jsToLower title) = true then DonationMethod.paypal
       else if containsSub ("transferencia".toList) (jsToLower title) = true then DonationMethod.bank
       else DonationMethod.unknown) := rfl
  rw [e]
  cases containsSub ("bizum".toList) (jsToLower title) <;>
    cases containsSub ("paypal".toList) (jsToLower title) <;>
      cases containsSub ("transferencia".toList) (jsToLower title) <;>
        simp

/-- C9 witness: a title containing both bizum and paypal resolves to bizum. -/
theorem donation_method_priority_witness :
    DonationManager.getDonationMethod "Dona con Bizum o PayPal" = DonationMethod.bizum :=
  (donation_method_priority "Dona con Bizum o PayPal").2.1 (by decide)

/-- C1: a testimonial submission whose trimmed text has length at least 10
appends exactly one record — with the name defaulting to Anónimo when the
field is absent or blank — and clears the form with a success notification; a
submission whose trimmed text is shorter (in particular empty or missing)
leaves the testimonios list unchanged and shows the error notification. -/
theorem testimonio_submit_spec (ts : List Testimonio) (nf tf : Option String)
    (now : String) :
    (10 ≤ (submittedTexto tf).length →
       Forms.setupTestimonioForm_submit ts nf tf now =
         { testimonios := ts ++
             [{ nombre := defaultNombre nf, texto := submittedTexto tf, fecha := now }],
           formCleared := true,
           notification := ("¡Gracias por compartir tu testimonio!", "success") }) ∧
    ((submittedTexto tf).length < 10 →
       Forms.setupTestimonioForm_submit ts nf tf now =
         { testimonios := ts, formCleared := false,
           notification := ("Por favor, escribe un testimonio de al menos 10 caracteres.", "error") }) := by
  constructor
  · intro h
    cases tf with
    | none => exact absurd h (by decide)
    | some t =>
      have ht : submittedTexto (some t) = jsTrim t := rfl
      rw [ht] at h ⊢
      have hne : jsTrim t ≠ "" := by
        intro he
        rw [he] at h
        exact absurd h (by decide)
      simp [Forms.setupTestimonioForm_submit, hne, h]
  · intro h
    cases tf with
    | none => rfl
    | some t =>
      have ht : submittedTexto (some t) = jsTrim t := rfl
      rw [ht] at h
      have hc : ¬(jsTrim t ≠ "" ∧ 10 ≤ (jsTrim t).length) := by
        rintro ⟨-, hge⟩
        omega
      simp [Forms.setupTestimonioForm_submit, hc]

/-- C1 witness: with an empty state, a missing name field and a 20-character
text, submission appends the Anónimo record and clears the form; the theorem
instantiated at that input. -/
theorem testimonio_submit_spec_witness :
    Forms.setupTestimonioForm_submit [] none (some "Dios es fiel y bueno") "2026-10-11" =
      { testimonios :=
          [{ nombre := "Anónimo", texto := "Dios es fiel y bueno", fecha := "2026-10-11" }],
        formCleared := true,
        notification := ("¡Gracias por compartir tu testimonio!", "success") } := by
  have h := (testimonio_submit_spec [] none (some "Dios es fiel y bueno") "2026-10-11").1
    (by decide)
  exact h

/-- Independent restatement of the name check of the claim: non-empty after
trimming and at least 2 characters. -/
def nombreOk (x : Option String) : Bool :=
  match x.map jsTrim with
  | none => false
  | some n => if n = "" then false else if n.length < 2 then false else true

/-- The inline errors the name check alone produces. -/
def nombreErrors (x : Option String) : List (String × String) :=
  match x.map jsTrim with
  | none => [("contact-nombre", "El nombre es obligatorio")]
  | some n =>
    if n = "" then [("contact-nombre", "El nombre es obligatorio")]
    else if n.length < 2 then
      [("contact-nombre", "El nombre debe tener al menos 2 caracteres")]
    else []

/-- Independent restatement of the email check: non-empty and matching the
email pattern. -/
def emailOk (x : Option String) : Bool :=
  match x.map jsTrim with
  | none => false
  | some e => if e = "" then false else Utils.validateEmail e

/-- The inline errors the email check alone produces. -/
def emailErrors (x : Option String) : List (String × String) :=
  match x.map jsTrim with
  | none => [("contact-email", "El email es obligatorio")]
  | some e =>
    if e = "" then [("contact-email", "El email es obligatorio")]
    else if Utils.validateEmail e then []
    else [("contact-email", "Por favor, introduce un email válido")]

/-- Independent restatement of the optional phone check: absent or blank
passes, otherwise the phone pattern must match. -/
def telefonoOk (x : Option String) : Bool :=
  match x.map jsTrim with
  | none => true
  | some t => if t = "" then true else Utils.validatePhone t

/-- The inline errors the phone check alone produces. -/
def telefonoErrors (x : Option String) : List (String × String) :=
  match x.map jsTrim with
  | none => []
  | some t =>
    if t = "" then []
    else if Utils.validatePhone t then []
    else [("contact-telefono", "Por favor, introduce un teléfono válido")]

/-- Independent restatement of the topic check: a selection is required. -/
def temaOk (x : Option String) : Bool :=
  match x with
  | none => false
  | some t => if t = "" then false else true

/-- The inline errors the topic check alone produces. -/
def temaErrors (x : Option String) : List (String × String) :=
  match x with
  | none => [("contact-tema", "Por favor, selecciona un tema")]
  | some t => if t = "" then [("contact-tema", "Por favor, selecciona un tema")] else []

/-- Independent restatement of the message check: non-empty after trimming and
at least 10 characters. -/
def mensajeOk (x : Option String) : Bool :=
  match x.map jsTrim with
  | none => false
  | some m => if m = "" then false else if m.length < 10 then false else true

/-- The inline errors the message check alone produces. -/
def mensajeErrors (x : Option String) : List (String × String) :=
  match x.map jsTrim with
  | none => [("contact-mensaje", "El mensaje es obligatorio")]
  | some m =>
    if m = "" then [("contact-mensaje", "El mensaje es obligatorio")]
    else if m.length < 10 then
      [("contact-mensaje", "El mensaje debe tener al menos 10 caracteres")]
    else []

/-- Independent restatement of the privacy check: the checkbox is required. -/
def privacidadOk (x : Option String) : Bool :=
  match x with
  | none => false
  | some p => if p = "" then false else true

/-- The inline errors the privacy check alone produces. -/
def privacidadErrors (x : Option String) : List (String × String) :=
  match x with
  | none => [("contact-privacidad", "Debes aceptar la política de privacidad")]
  | some p =>
    if p = "" then [("contact-privacidad", "Debes aceptar la política de privacidad")] else []

/-- Each validation block conjoins its own verdict onto the incoming flag and
appends its own errors: the name block. -/
theorem nombreStep_eq (x : Option String) (acc : Bool × List (String × String)) :
    Forms.nombreStep x acc = (acc.1 && nombreOk x, acc.2 ++ nombreErrors x) := by
  cases x with
  | none => simp [Forms.nombreStep, nombreOk, nombreErrors]
  | some s =>
    by_cases h1 : jsTrim s = ""
    · simp [Forms.nombreStep, nombreOk, nombreErrors, h1]
    · by_cases h2 : (jsTrim s).length < 2
      · simp [Forms.nombreStep, nombreOk, nombreErrors, h1, h2]
      · simp [Forms.nombreStep, nombreOk, nombreErrors, h1, h2]

/-- The email block conjoins its verdict and appends its errors. -/
theorem emailStep_eq (x : Option String) (acc : Bool × List (String × String)) :
    Forms.emailStep x acc = (acc.1 && emailOk x, acc.2 ++ emailErrors x) := by
  cases x with
  | none => simp [Forms.emailStep, emailOk, emailErrors]
  | some s =>
    by_cases h1 : jsTrim s = ""
    · simp [Forms.emailStep, emailOk, emailErrors, h1]
    · by_cases h2 : Utils.validateEmail (jsTrim s) = true
      · simp [Forms.emailStep, emailOk, emailErrors, h1, h2]
      · simp [Forms.emailStep, emailOk, emailErrors, h1,
          Bool.not_eq_true _ ▸ h2]

/-- The phone block conjoins its verdict and appends its errors. -/
theorem telefonoStep_eq (x : Option String) (acc : Bool × List (String × String)) :
    Forms.telefonoStep x acc = (acc.1 && telefonoOk x, acc.2 ++ telefonoErrors x) := by
  cases x with
  | none => simp [Forms.telefonoStep, telefonoOk, telefonoErrors]
  | some s =>
    by_cases h1 : jsTrim s = ""
    · simp [Forms.telefonoStep, telefonoOk, telefonoErrors, h1]
    · by_cases h2 : Utils.validatePhone (jsTrim s) = true
      · simp [Forms.telefonoStep, telefonoOk, telefonoErrors, h1, h2]
      · simp [Forms.telefonoStep, telefonoOk, telefonoErrors, h1,
          Bool.not_eq_true _ ▸ h2]

/-- The topic block conjoins its verdict and appends its errors. -/
theorem temaStep_eq (x : Option String) (acc : Bool × List (String × String)) :
    Forms.temaStep x acc = (acc.1 && temaOk x, acc.2 ++ temaErrors x) := by
  cases x with
  | none => simp [Forms.temaStep, temaOk, temaErrors]
  | some s =>
    by_cases h1 : s = ""
    · simp [Forms.temaStep, temaOk, temaErrors, h1]
    · simp [Forms.temaStep, temaOk, temaErrors, h1]

/-- The message block conjoins its verdict and appends its errors. -/
theorem mensajeStep_eq (x : Option String) (acc : Bool × List (String × String)) :
    Forms.mensajeStep x acc = (acc.1 && mensajeOk x, acc.2 ++ mensajeErrors x) := by
  cases x with
  | none => simp [Forms.mensajeStep, mensajeOk, mensajeErrors]
  | some s =>
    by_cases h1 : jsTrim s = ""
    · simp [Forms.mensajeStep, mensajeOk, mensajeErrors, h1]
    · by_cases h2 : (jsTrim s).length < 10
      · simp [Forms.mensajeStep, mensajeOk, mensajeErrors, h1, h2]
      · simp [Forms.mensajeStep, mensajeOk, mensajeErrors, h1, h2]

/-- The privacy block conjoins its verdict and appends its errors. -/
theorem privacidadStep_eq (x : Option String) (acc : Bool × List (String × String)) :
    Forms.privacidadStep x acc = (acc.1 && privacidadOk x, acc.2 ++ privacidadErrors x) := by
  cases x with
  | none => simp [Forms.privacidadStep, privacidadOk, privacidadErrors]
  | some s =>
    by_cases h1 : s = ""
    · simp [Forms.privacidadStep, privacidadOk, privacidadErrors, h1]
    · simp [Forms.privacidadStep, privacidadOk, privacidadErrors, h1]

/-- C6: contact-form validation evaluates every field check on every run — the
emitted inline errors are the concatenation of each field's own errors,
independent of whether an earlier field already failed — and the overall
verdict is the logical AND of the six checks; moreover a field check fails
exactly when it emits its inline error. -/
theorem contact_validation_all_checks :
    (∀ f : ContactInput,
       Forms.validateContactForm f =
         (nombreOk f.nombre && (emailOk f.email && (telefonoOk f.telefono &&
            (temaOk f.tema && (mensajeOk f.mensaje && privacidadOk f.privacidad)))),
          nombreErrors f.nombre ++ (emailErrors f.email ++ (telefonoErrors f.telefono ++
            (temaErrors f.tema ++ (mensajeErrors f.mensaje ++ privacidadErrors f.privacidad)))))) ∧
    (∀ x, nombreOk x = false ↔ nombreErrors x ≠ []) ∧
    (∀ x, emailOk x = false ↔ emailErrors x ≠ []) ∧
    (∀ x, telefonoOk x = false ↔ telefonoErrors x ≠ []) ∧
    (∀ x, temaOk x = false ↔ temaErrors x ≠ []) ∧
    (∀ x, mensajeOk x = false ↔ mensajeErrors x ≠ []) ∧
    (∀ x, privacidadOk x = false ↔ privacidadErrors x ≠ []) := by
  refine ⟨?_, ?_, ?_, ?_, ?_, ?_, ?_⟩
  · intro f
    simp only [Forms.validateContactForm, nombreStep_eq, emailStep_eq, telefonoStep_eq,
      temaStep_eq, mensajeStep_eq, privacidadStep_eq]
    simp [Bool.and_assoc, List.append_assoc]
  · intro x
    cases x with
    | none => simp [nombreOk, nombreErrors]
    | some s =>
      by_cases h1 : jsTrim s = ""
      · simp [nombreOk, nombreErrors, h1]
      · by_cases h2 : (jsTrim s).length < 2
        · simp [nombreOk, nombreErrors, h1, h2]
        · simp [nombreOk, nombreErrors, h1, h2]
  · intro x
    cases x with
    | none => simp [emailOk, emailErrors]
    | some s =>
      by_cases h1 : jsTrim s = ""
      · simp [emailOk, emailErrors, h1]
      · by_cases h2 : Utils.validateEmail (jsTrim s) = true
        · simp [emailOk, emailErrors, h1, h2]
        · simp [emailOk, emailErrors, h1, Bool.not_eq_true _ ▸ h2]
  · intro x
    cases x with
    | none => simp [telefonoOk, telefonoErrors]
    | some s =>
      by_cases h1 : jsTrim s = ""
      · simp [telefonoOk, telefonoErrors, h1]
      · by_cases h2 : Utils.validatePhone (jsTrim s) = true
        · simp [telefonoOk, telefonoErrors, h1, h2]
        · simp [telefonoOk, telefonoErrors, h1, Bool.not_eq_true _ ▸ h2]
  · intro x
    cases x with
    | none => simp [temaOk, temaErrors]
    | some s =>
      by_cases h1 : s = ""
      · simp [temaOk, temaErrors, h1]
      · simp [temaOk, temaErrors, h1]
  · intro x
    cases x with
    | none => simp [mensajeOk, mensajeErrors]
    | some s =>
      by_cases h1 : jsTrim s = ""
      · simp [mensajeOk, mensajeErrors, h1]
      · by_cases h2 : (jsTrim s).length < 10
        · simp [mensajeOk, mensajeErrors, h1, h2]
        · simp [mensajeOk, mensajeErrors, h1, h2]
  · intro x
    cases x with
    | none => simp [privacidadOk, privacidadErrors]
    | some s =>
      by_cases h1 : s = ""
      · simp [privacidadOk, privacidadErrors, h1]
      · simp [privacidadOk, privacidadErrors, h1]

/-- A separator character of the phone pattern is not a digit. -/
theorem isSep_not_digit {c : Char} (h : isSep c = true) : c.isDigit = false := by
  rw [isSep, Bool.or_eq_true] at h
  rcases h with h | h
  · have hc : c = ' ' := eq_of_beq h
    subst hc; decide
  · have hc : c = '-' := eq_of_beq h
    subst hc; decide

/-- Consuming leading separators does not change the digit content of the
input: whatever the continuation accepted has the same digits. -/
theorem starThen_sep_filter {k : List Char → Bool} :
    ∀ l : List Char, starThen isSep k l = true →
      ∃ l2, k l2 = true ∧ l.filter Char.isDigit = l2.filter Char.isDigit := by
  intro l
  induction l with
  | nil =>
    intro h
    exact ⟨[], by simpa [starThen] using h, rfl⟩
  | cons c cs ih =>
    intro h
    rw [starThen, Bool.or_eq_true] at h
    rcases h with h | h
    · exact ⟨c :: cs, h, rfl⟩
    · rw [Bool.and_eq_true] at h
      obtain ⟨l2, hk, hf⟩ := ih h.2
      refine ⟨l2, hk, ?_⟩
      rw [List.filter_cons, isSep_not_digit h.1]
      simpa using hf

/-- An input accepted by the repeated digit group contains exactly n digits. -/
theorem digitBlock_filter : ∀ (n : Nat) (l : List Char), digitBlock n l = true →
    (l.filter Char.isDigit).length = n := by
  intro n
  induction n with
  | zero =>
    intro l h
    have hl : l = [] := by
      cases l with
      | nil => rfl
      | cons a as => simp [digitBlock] at h
    subst hl; rfl
  | succ n ih =>
    intro l h
    cases l with
    | nil => simp [digitBlock] at h
    | cons c cs =>
      rw [digitBlock, Bool.and_eq_true] at h
      obtain ⟨l2, hdb, hf⟩ := starThen_sep_filter cs h.2
      have hlen := ih l2 hdb
      rw [List.filter_cons, h.1]
      simp [hf, hlen]

/-- An input accepted by phoneCore has digit content of exactly nine digits,
the first of which is 6 or 7. -/
theorem phoneCore_digits (l : List Char) (h : phoneCore l = true) :
    ∃ c cs, l.filter Char.isDigit = c :: cs ∧ (c = '6' ∨ c = '7') ∧ cs.length = 8 := by
  rw [phoneCore] at h
  obtain ⟨l1, h1, hf1⟩ := starThen_sep_filter l h
  cases l1 with
  | nil => simp [phoneHead] at h1
  | cons c cs =>
    rw [phoneHead, Bool.and_eq_true, Bool.or_eq_true] at h1
    obtain ⟨hc, hs⟩ := h1
    obtain ⟨l2, h2, hf2⟩ := starThen_sep_filter cs hs
    have hlen := digitBlock_filter 8 l2 h2
    have hc' : c = '6' ∨ c = '7' := by
      rcases hc with h | h
      · exact Or.inl (eq_of_beq h)
      · exact Or.inr (eq_of_beq h)
    have hcd : c.isDigit = true := by
      rcases hc' with rfl | rfl <;> decide
    refine ⟨c, cs.filter Char.isDigit, ?_, hc', ?_⟩
    · simp [hf1, hcd]
    · rw [hf2]
      exact hlen

/-- A successful literal strip decomposes the input as the literal followed by
the remainder. -/
theorem stripLit_append : ∀ p l r : List Char, stripLit p l = some r → l = p ++ r := by
  intro p
  induction p with
  | nil =>
    intro l r h
    simp only [stripLit, Option.some.injEq] at h
    simpa using h
  | cons a ps ih =>
    intro l r h
    cases l with
    | nil => simp [stripLit] at h
    | cons c cs =>
      simp only [stripLit] at h
      by_cases hb : (c == a) = true
      · rw [if_pos hb] at h
        have hce : c = a := eq_of_beq hb
        subst hce
        have hr := ih cs r h
        simp [hr]
      · rw [if_neg hb] at h
        exact absurd h (by simp)

/-- C7: the phone validator accepts "612345678" and rejects "512345678", and
any accepted string decomposes as an optional country code prefix (+34, 0034
or 34) followed by a remainder whose digit content is a leading 6 or 7 plus
eight further digits. -/
theorem phone_validator_spec :
    Utils.validatePhone "612345678" = true ∧
    Utils.validatePhone "512345678" = false ∧
    ∀ s : String, Utils.validatePhone s = true →
      ∃ rest : List Char,
        (s.toList = ['+', '3', '4'] ++ rest ∨ s.toList = ['0', '0', '3', '4'] ++ rest ∨
         s.toList = ['3', '4'] ++ rest ∨ s.toList = rest) ∧
        ∃ c cs, rest.filter Char.isDigit = c :: cs ∧ (c = '6' ∨ c = '7') ∧ cs.length = 8 := by
  refine ⟨by decide, by decide, ?_⟩
  intro s h
  have e : Utils.validatePhone s =
      ((match stripLit ['+', '3', '4'] s.toList with
        | some r => phoneCore r
        | none => false) ||
       (match stripLit ['0', '0', '3', '4'] s.toList with
        | some r => phoneCore r
        | none => false) ||
       (match stripLit ['3', '4'] s.toList with
        | some r => phoneCore r
        | none => false) ||
       phoneCore s.toList) := rfl
  rw [e, Bool.or_eq_true, Bool.or_eq_true, Bool.or_eq_true] at h
  rcases h with ((h | h) | h) | h
  · cases hsl : stripLit ['+', '3', '4'] s.toList with
    | none => rw [hsl] at h; simp at h
    | some r =>
      rw [hsl] at h
      exact ⟨r, Or.inl (stripLit_append _ _ _ hsl), phoneCore_digits r (by simpa using h)⟩
  · cases hsl : stripLit ['0', '0', '3', '4'] s.toList with
    | none => rw [hsl] at h; simp at h
    | some r =>
      rw [hsl] at h
      exact ⟨r, Or.inr (Or.inl (stripLit_append _ _ _ hsl)),
        phoneCore_digits r (by simpa using h)⟩
  · cases hsl : stripLit ['3', '4'] s.toList with
    | none => rw [hsl] at h; simp at h
    | some r =>
      rw [hsl] at h
      exact ⟨r, Or.inr (Or.inr (Or.inl (stripLit_append _ _ _ hsl))),
        phoneCore_digits r (by simpa using h)⟩
  · exact ⟨s.toList, Or.inr (Or.inr (Or.inr rfl)), phoneCore_digits _ h⟩

/-- C7 witness: the accepted string "612345678" exhibits the decomposition (no
prefix; digit content 6 followed by eight digits). -/
theorem phone_validator_spec_witness :
    ∃ rest : List Char,
      ("612345678".toList = ['+', '3', '4'] ++ rest ∨
       "612345678".toList = ['0', '0', '3', '4'] ++ rest ∨
       "612345678".toList = ['3', '4'] ++ rest ∨ "612345678".toList = rest) ∧
      ∃ c cs, rest.filter Char.isDigit = c :: cs ∧ (c = '6' ∨ c = '7') ∧ cs.length = 8 :=
  phone_validator_spec.2.2 "612345678" (by decide)

end MonteOlivos
